import Mathlib

/-!
Shallow embedding of the geometric tiler of `src/ad_generation/generate_with_ai.py`:
the functions `crop_and_resize_to_ad_size` (lines 84-110) and `create_panning_gif`
(lines 113-186).

Modelling conventions:
* Python `int`s are `Int`; Python `//` on nonnegative operands is `Int.fdiv`.
* Python float arithmetic (`/` on ints yields a float) is modelled as exact
  rational arithmetic in `ℚ`; `int(x)` applied to a float is truncation toward
  zero, modelled by `pyint`.
* A Python `ZeroDivisionError` (float or int division by zero) aborts the call;
  fallible functions therefore return `Option`, with `none` for the raised
  exception, checked at exactly the program points where Python would divide.
* PIL's `image.crop(box)` is modelled by recording the box; `cropped.resize((w, h))`
  always yields an image of size exactly `(w, h)`, so a produced frame is
  recorded as its crop box together with the size passed to `resize`.
-/

namespace Yankee

/-- A crop box `(left, top, right, bottom)` as passed to PIL `Image.crop`. -/
structure Box where
  left : Int
  top : Int
  right : Int
  bottom : Int
deriving DecidableEq

/-- A frame produced by `crop` followed by `resize`: the crop box taken from the
source image, and the exact output dimensions passed to `resize`. -/
structure Frame where
  box : Box
  width : Int
  height : Int
deriving DecidableEq

/-- Python `int(x)` on a float value, modelled on exact rationals: truncation
toward zero, i.e. floor for nonnegative values and ceiling for negative ones. -/
def pyint (x : ℚ) : Int := if 0 ≤ x then ⌊x⌋ else ⌈x⌉

/-- Embedding of `crop_and_resize_to_ad_size(image, target_width, target_height)`
(lines 84-110): center-crop the `W × H` image to the target aspect ratio, then
resize to exactly `(tw, th)`.  `none` models the `ZeroDivisionError` raised when
`target_aspect = target_width / target_height` (line 90) or
`current_aspect = img_width / img_height` (line 91) divides by zero, or when
line 101 divides `img_width` by a zero `target_aspect`. -/
def crop_and_resize_to_ad_size (W H tw th : Int) : Option Frame :=
  if th = 0 then none
  else if H = 0 then none
  else
    let target_aspect : ℚ := (tw : ℚ) / (th : ℚ)
    let current_aspect : ℚ := (W : ℚ) / (H : ℚ)
    if current_aspect > target_aspect then
      -- image is wider than target: crop width (lines 94-98)
      let new_width : Int := pyint ((H : ℚ) * target_aspect)
      let left : Int := Int.fdiv (W - new_width) 2
      some ⟨⟨left, 0, left + new_width, H⟩, tw, th⟩
    else if current_aspect < target_aspect then
      -- image is taller than target: crop height (lines 99-103)
      if target_aspect = 0 then none
      else
        let new_height : Int := pyint ((W : ℚ) / target_aspect)
        let top : Int := Int.fdiv (H - new_height) 2
        some ⟨⟨0, top, W, top + new_height⟩, tw, th⟩
    else
      -- aspect ratios match: no crop (lines 104-106)
      some ⟨⟨0, 0, W, H⟩, tw, th⟩

/-- The crop-window size `(crop_width, crop_height)` computed by
`create_panning_gif`: lines 124-133 for the landscape branch (`tw > th`),
lines 151-159 for the portrait/square branch, including the shrink step that
caps the window at the source extent along the pan axis.  `none` models the
`ZeroDivisionError` of the float divisions at lines 120, 128 and 159. -/
def pan_window (W H tw th : Int) : Option (Int × Int) :=
  if th = 0 then none
  else
    let target_aspect : ℚ := (tw : ℚ) / (th : ℚ)
    if tw > th then
      if target_aspect = 0 then none
      else
        let crop_width : Int := W
        let crop_height : Int := pyint ((crop_width : ℚ) / target_aspect)
        if crop_height > H then
          some (pyint ((H : ℚ) * target_aspect), H)
        else
          some (crop_width, crop_height)
    else
      let crop_height : Int := H
      let crop_width : Int := pyint ((crop_height : ℚ) * target_aspect)
      if crop_width > W then
        if target_aspect = 0 then none
        else
          some (W, pyint ((W : ℚ) / target_aspect))
      else
        some (crop_width, crop_height)

/-- The pan range computed by `create_panning_gif`: `max_top = img_height -
crop_height` (line 136) in the landscape branch, `max_left = img_width -
crop_width` (line 162) in the portrait/square branch. -/
def pan_axis_range (W H tw th : Int) : Option Int :=
  (pan_window W H tw th).map fun wh =>
    if tw > th then H - wh.2 else W - wh.1

/-- The body of the frame loop of `create_panning_gif` (lines 140-146 in the
landscape branch, lines 166-172 in the portrait/square branch): frame `i` crops
at pan offset `int((max_offset * i) / (num_frames - 1))` (`0` when
`num_frames <= 1`), centered along the non-pan axis, then resizes to
`(tw, th)`. -/
def pan_frame (W H tw th num_frames max_offset crop_width crop_height : Int)
    (i : Nat) : Frame :=
  let off : Int :=
    if num_frames > 1 then
      pyint (((max_offset * (i : Int) : Int) : ℚ) / ((num_frames - 1 : Int) : ℚ))
    else 0
  if tw > th then
    let left : Int := Int.fdiv (W - crop_width) 2
    ⟨⟨left, off, left + crop_width, off + crop_height⟩, tw, th⟩
  else
    let top : Int := Int.fdiv (H - crop_height) 2
    ⟨⟨off, top, off + crop_width, top + crop_height⟩, tw, th⟩

/-- The ordered list of frames assembled by `create_panning_gif` (lines 122-175):
either `num_frames` pan frames sliding the crop window along the pan axis, or,
when the pan range is not positive, the single center-crop frame of
`crop_and_resize_to_ad_size`. -/
def create_panning_gif_frames (W H tw th num_frames : Int) : Option (List Frame) :=
  match pan_window W H tw th with
  | none => none
  | some (crop_width, crop_height) =>
    let max_offset : Int := if tw > th then H - crop_height else W - crop_width
    if max_offset > 0 then
      some ((List.range num_frames.toNat).map
        (pan_frame W H tw th num_frames max_offset crop_width crop_height))
    else
      (crop_and_resize_to_ad_size W H tw th).map fun f => [f]

/-- The save step of `create_panning_gif` (lines 177-186): the frame list is
saved as a GIF (first frame plus appended rest) only when it is nonempty; an
empty list is silently skipped.  The outer `Option` is the exception channel of
the frame construction; the inner `Option` is `none` exactly when nothing was
saved. -/
def create_panning_gif (W H tw th num_frames : Int) :
    Option (Option (Frame × List Frame)) :=
  (create_panning_gif_frames W H tw th num_frames).map fun frames =>
    match frames with
    | [] => none
    | f :: rest => some (f, rest)

/-- The offset of a frame along the pan axis chosen by `create_panning_gif`:
the crop box's top edge when panning vertically (`tw > th`), its left edge when
panning horizontally. -/
def panOffset (tw th : Int) (f : Frame) : Int :=
  if tw > th then f.box.top else f.box.left

/-- The crop box lies fully inside a `W × H` source image. -/
def inBounds (W H : Int) (b : Box) : Prop :=
  0 ≤ b.left ∧ b.right ≤ W ∧ 0 ≤ b.top ∧ b.bottom ≤ H

instance (W H : Int) (b : Box) : Decidable (inBounds W H b) := by
  unfold inBounds; infer_instance

/-! Bridge lemmas: the exact-rational float model evaluated on nonnegative
integer data reduces to integer floor division. -/

lemma pyint_of_nonneg {x : ℚ} (h : 0 ≤ x) : pyint x = ⌊x⌋ := if_pos h

lemma floor_intCast_div {a b : Int} (hb : 0 < b) :
    ⌊(a : ℚ) / (b : ℚ)⌋ = a / b := by
  lift b to ℕ using hb.le with n
  rw [Int.cast_natCast]
  exact Rat.floor_intCast_div_natCast a n

lemma pyint_intCast_div {a b : Int} (ha : 0 ≤ a) (hb : 0 < b) :
    pyint ((a : ℚ) / (b : ℚ)) = a / b := by
  rw [pyint_of_nonneg (div_nonneg (by exact_mod_cast ha) (by exact_mod_cast hb.le))]
  exact floor_intCast_div hb

lemma cast_mul_div (a b c : Int) :
    (a : ℚ) * ((b : ℚ) / (c : ℚ)) = ((a * b : Int) : ℚ) / ((c : Int) : ℚ) := by
  push_cast
  ring

lemma cast_div_div (a b c : Int) :
    (a : ℚ) / ((b : ℚ) / (c : ℚ)) = ((a * c : Int) : ℚ) / ((b : Int) : ℚ) := by
  push_cast
  rw [div_div_eq_mul_div]

lemma pyint_mul_aspect {a b c : Int} (ha : 0 ≤ a) (hb : 0 ≤ b) (hc : 0 < c) :
    pyint ((a : ℚ) * ((b : ℚ) / (c : ℚ))) = a * b / c := by
  rw [cast_mul_div, pyint_intCast_div (mul_nonneg ha hb) hc]

lemma pyint_div_aspect {a b c : Int} (ha : 0 ≤ a) (hb : 0 < b) (hc : 0 < c) :
    pyint ((a : ℚ) / ((b : ℚ) / (c : ℚ))) = a * c / b := by
  rw [cast_div_div, pyint_intCast_div (mul_nonneg ha hc.le) hb]

lemma aspect_lt_iff {a b c d : Int} (hb : 0 < b) (hd : 0 < d) :
    (a : ℚ) / (b : ℚ) < (c : ℚ) / (d : ℚ) ↔ a * d < c * b := by
  rw [div_lt_div_iff₀ (by exact_mod_cast hb) (by exact_mod_cast hd)]
  exact_mod_cast Iff.rfl

lemma aspect_ne_zero {a b : Int} (ha : 0 < a) (hb : 0 < b) :
    (a : ℚ) / (b : ℚ) ≠ 0 :=
  ne_of_gt (div_pos (by exact_mod_cast ha) (by exact_mod_cast hb))

/-- Closed form of `crop_and_resize_to_ad_size` on positive dimensions, with all
float arithmetic discharged into integer floor division. -/
lemma crop_and_resize_eq (W H tw th : Int)
    (hW : 0 < W) (hH : 0 < H) (htw : 0 < tw) (hth : 0 < th) :
    crop_and_resize_to_ad_size W H tw th =
      if tw * H < W * th then
        some ⟨⟨(W - H * tw / th).fdiv 2, 0,
               (W - H * tw / th).fdiv 2 + H * tw / th, H⟩, tw, th⟩
      else if W * th < tw * H then
        some ⟨⟨0, (H - W * th / tw).fdiv 2, W,
               (H - W * th / tw).fdiv 2 + W * th / tw⟩, tw, th⟩
      else
        some ⟨⟨0, 0, W, H⟩, tw, th⟩ := by
  simp only [crop_and_resize_to_ad_size, if_neg hth.ne', if_neg hH.ne']
  by_cases h1 : tw * H < W * th
  · rw [if_pos ((aspect_lt_iff hth hH).mpr h1), if_pos h1,
      pyint_mul_aspect hH.le htw.le hth]
  · rw [if_neg (fun hq => h1 ((aspect_lt_iff hth hH).mp hq)), if_neg h1]
    by_cases h2 : W * th < tw * H
    · rw [if_pos ((aspect_lt_iff hH hth).mpr h2), if_pos h2,
        if_neg (aspect_ne_zero htw hth), pyint_div_aspect hW.le htw hth]
    · rw [if_neg (fun hq => h2 ((aspect_lt_iff hH hth).mp hq)), if_neg h2]

/-- Closed form of `pan_window` on positive dimensions. -/
lemma pan_window_eq (W H tw th : Int)
    (hW : 0 < W) (hH : 0 < H) (htw : 0 < tw) (hth : 0 < th) :
    pan_window W H tw th =
      if th < tw then
        (if H < W * th / tw then some (H * tw / th, H)
         else some (W, W * th / tw))
      else
        (if W < H * tw / th then some (W, W * th / tw)
         else some (H * tw / th, H)) := by
  simp only [pan_window, if_neg hth.ne', gt_iff_lt]
  by_cases hl : th < tw
  · rw [if_pos hl, if_pos hl, if_neg (aspect_ne_zero htw hth),
      pyint_div_aspect hW.le htw hth]
    by_cases hs : H < W * th / tw
    · rw [if_pos hs, if_pos hs, pyint_mul_aspect hH.le htw.le hth]
    · rw [if_neg hs, if_neg hs]
  · rw [if_neg hl, if_neg hl, pyint_mul_aspect hH.le htw.le hth]
    by_cases hs : W < H * tw / th
    · rw [if_pos hs, if_pos hs, if_neg (aspect_ne_zero htw hth),
        pyint_div_aspect hW.le htw hth]
    · rw [if_neg hs, if_neg hs]

/-! Window, centering and offset bounds. -/

/-- After the shrink step, the recomputed extent along the non-pan axis still
fits the source: if the natural window extent `W * th / tw` overflows `H`, then
the recomputed extent `H * tw / th` fits inside `W`. -/
lemma shrink_le {W H tw th : Int} (htw : 0 < tw) (hth : 0 < th)
    (h : H < W * th / tw) : H * tw / th ≤ W := by
  have h1 : (H + 1) * tw ≤ W * th :=
    (Int.le_ediv_iff_mul_le htw).mp (by omega)
  have h2 : H * tw / th < W + 1 := by
    rw [Int.ediv_lt_iff_lt_mul hth]
    nlinarith
  omega

/-- Every window returned by `pan_window` on positive dimensions is nonnegative
and fits inside the source image. -/
lemma pan_window_bounds {W H tw th cw ch : Int}
    (hW : 0 < W) (hH : 0 < H) (htw : 0 < tw) (hth : 0 < th)
    (h : pan_window W H tw th = some (cw, ch)) :
    0 ≤ cw ∧ cw ≤ W ∧ 0 ≤ ch ∧ ch ≤ H := by
  rw [pan_window_eq W H tw th hW hH htw hth] at h
  have hdw : 0 ≤ W * th / tw := Int.ediv_nonneg (by positivity) htw.le
  have hdh : 0 ≤ H * tw / th := Int.ediv_nonneg (by positivity) hth.le
  by_cases hl : th < tw
  · rw [if_pos hl] at h
    by_cases hs : H < W * th / tw
    · rw [if_pos hs] at h
      obtain ⟨rfl, rfl⟩ : H * tw / th = cw ∧ H = ch := by
        simpa using h
      exact ⟨hdh, shrink_le htw hth hs, hH.le, le_refl _⟩
    · rw [if_neg hs] at h
      obtain ⟨rfl, rfl⟩ : W = cw ∧ W * th / tw = ch := by
        simpa using h
      exact ⟨hW.le, le_refl _, hdw, not_lt.mp hs⟩
  · rw [if_neg hl] at h
    by_cases hs : W < H * tw / th
    · rw [if_pos hs] at h
      obtain ⟨rfl, rfl⟩ : W = cw ∧ W * th / tw = ch := by
        simpa using h
      exact ⟨hW.le, le_refl _, hdw, shrink_le hth htw hs⟩
    · rw [if_neg hs] at h
      obtain ⟨rfl, rfl⟩ : H * tw / th = cw ∧ H = ch := by
        simpa using h
      exact ⟨hdh, not_lt.mp hs, hH.le, le_refl _⟩

/-- The centered non-pan offset `(X - c) // 2` together with the window extent
`c` stays inside the source extent `X`. -/
lemma center_bounds {X c : Int} (h0 : 0 ≤ X - c) :
    0 ≤ (X - c).fdiv 2 ∧ (X - c).fdiv 2 + c ≤ X := by
  rw [Int.fdiv_eq_ediv _ (by norm_num)]
  refine ⟨Int.ediv_nonneg h0 (by norm_num), ?_⟩
  have := Int.ediv_le_self 2 h0
  omega

/-- The interpolated pan offset `m * i / d` is between `0` and `m`. -/
lemma offset_bounds {m d i : Int} (hm : 0 ≤ m) (hd : 0 < d)
    (hi : 0 ≤ i) (hid : i ≤ d) :
    0 ≤ m * i / d ∧ m * i / d ≤ m := by
  refine ⟨Int.ediv_nonneg (mul_nonneg hm hi) hd.le, ?_⟩
  calc m * i / d ≤ m * d / d :=
        Int.ediv_le_ediv hd (mul_le_mul_of_nonneg_left hid hm)
    _ = m := Int.mul_ediv_cancel m hd.ne'

/-! Characterizations of the frame list under each branch. -/

/-- Closed form of one pan frame when the pan range is nonnegative: the float
offset expression becomes integer floor division. -/
lemma pan_frame_eq (W H tw th nf m cw ch : Int) (i : Nat) (hm : 0 ≤ m) :
    pan_frame W H tw th nf m cw ch i =
      if th < tw then
        ⟨⟨(W - cw).fdiv 2, (if 1 < nf then m * (i : Int) / (nf - 1) else 0),
          (W - cw).fdiv 2 + cw,
          (if 1 < nf then m * (i : Int) / (nf - 1) else 0) + ch⟩, tw, th⟩
      else
        ⟨⟨(if 1 < nf then m * (i : Int) / (nf - 1) else 0), (H - ch).fdiv 2,
          (if 1 < nf then m * (i : Int) / (nf - 1) else 0) + cw,
          (H - ch).fdiv 2 + ch⟩, tw, th⟩ := by
  unfold pan_frame
  by_cases hnf : 1 < nf
  · have hd : (0 : Int) < nf - 1 := by omega
    simp only [gt_iff_lt, if_pos hnf,
      pyint_intCast_div (mul_nonneg hm (Int.natCast_nonneg i)) hd]
  · simp only [gt_iff_lt, if_neg hnf]

/-- In the multi-frame case (`max_offset > 0`), `create_panning_gif_frames`
produces one `pan_frame` per index in `range num_frames`. -/
lemma frames_multi (W H tw th nf cw ch m : Int)
    (hwin : pan_window W H tw th = some (cw, ch))
    (hmdef : m = if th < tw then H - ch else W - cw)
    (hm : 0 < m) :
    create_panning_gif_frames W H tw th nf =
      some ((List.range nf.toNat).map (pan_frame W H tw th nf m cw ch)) := by
  simp only [create_panning_gif_frames, hwin, gt_iff_lt, ← hmdef]
  rw [if_pos hm]

/-- In the degenerate case (`max_offset ≤ 0`), `create_panning_gif_frames`
returns the single static center-crop frame. -/
lemma frames_single (W H tw th nf cw ch : Int)
    (hwin : pan_window W H tw th = some (cw, ch))
    (hm : (if th < tw then H - ch else W - cw) ≤ 0) :
    create_panning_gif_frames W H tw th nf =
      (crop_and_resize_to_ad_size W H tw th).map fun f => [f] := by
  simp only [create_panning_gif_frames, hwin, gt_iff_lt]
  rw [if_neg (not_lt.mpr hm)]

/-- Destructor for `pan_axis_range`: a computed range comes from a computed
window, with the range taken along the pan axis of the branch. -/
lemma pan_axis_range_some {W H tw th m : Int}
    (h : pan_axis_range W H tw th = some m) :
    ∃ cw ch, pan_window W H tw th = some (cw, ch) ∧
      m = (if th < tw then H - ch else W - cw) := by
  unfold pan_axis_range at h
  cases hw : pan_window W H tw th with
  | none => rw [hw] at h; cases h
  | some p =>
    rw [hw, Option.map_some'] at h
    exact ⟨p.1, p.2, rfl, (Option.some.inj h).symm⟩

/-- Indexing into a mapped `range`: the element at `i` is the image of `i`. -/
lemma getElem?_range_map {g : Nat → Frame} {n i : Nat} {x : Frame}
    (h : ((List.range n).map g)[i]? = some x) : i < n ∧ x = g i := by
  rw [List.getElem?_map] at h
  by_cases hi : i < n
  · rw [List.getElem?_range hi] at h
    simp only [Option.map_some'] at h
    exact ⟨hi, (Option.some.inj h).symm⟩
  · rw [List.getElem?_eq_none (by simpa using hi)] at h
    cases h

/-- Size, totality and in-bounds facts about the static crop on positive
dimensions, bundled for reuse. -/
lemma crop_frame_spec (W H tw th : Int)
    (hW : 0 < W) (hH : 0 < H) (htw : 0 < tw) (hth : 0 < th) :
    ∃ f, crop_and_resize_to_ad_size W H tw th = some f ∧
      f.width = tw ∧ f.height = th ∧ inBounds W H f.box := by
  rw [crop_and_resize_eq W H tw th hW hH htw hth]
  by_cases h1 : tw * H < W * th
  · rw [if_pos h1]
    have hnw0 : 0 ≤ H * tw / th := Int.ediv_nonneg (by positivity) hth.le
    have hnwW : H * tw / th ≤ W := by
      have hx : H * tw / th < W + 1 := by
        rw [Int.ediv_lt_iff_lt_mul hth]
        nlinarith
      omega
    obtain ⟨hl, hr⟩ := center_bounds (X := W) (c := H * tw / th) (by omega)
    exact ⟨_, rfl, rfl, rfl, hl, hr, le_refl _, le_refl _⟩
  · rw [if_neg h1]
    by_cases h2 : W * th < tw * H
    · rw [if_pos h2]
      have hnh0 : 0 ≤ W * th / tw := Int.ediv_nonneg (by positivity) htw.le
      have hnhH : W * th / tw ≤ H := by
        have hx : W * th / tw < H + 1 := by
          rw [Int.ediv_lt_iff_lt_mul htw]
          nlinarith
        omega
      obtain ⟨hl, hr⟩ := center_bounds (X := H) (c := W * th / tw) (by omega)
      exact ⟨_, rfl, rfl, rfl, le_refl _, le_refl _, hl, hr⟩
    · rw [if_neg h2]
      exact ⟨_, rfl, rfl, rfl, le_refl _, le_refl _, le_refl _, le_refl _⟩

/-! Concrete evaluations reused by witnesses. -/

lemma eval_win_304 : pan_window 1024 1024 304 248 = some (1024, 835) := by
  rw [pan_window_eq 1024 1024 304 248 (by norm_num) (by norm_num) (by norm_num)
    (by norm_num)]
  decide

lemma eval_range_304 : pan_axis_range 1024 1024 304 248 = some 189 := by
  unfold pan_axis_range
  rw [eval_win_304]
  decide

lemma eval_frames_304 : create_panning_gif_frames 1024 1024 304 248 2 =
    some [⟨⟨0, 0, 1024, 835⟩, 304, 248⟩, ⟨⟨0, 189, 1024, 1024⟩, 304, 248⟩] := by
  rw [frames_multi 1024 1024 304 248 2 1024 835 189 eval_win_304 (by decide)
    (by decide)]
  rw [show List.range (Int.toNat 2) = [0, 1] from rfl, List.map_cons, List.map_cons,
    List.map_nil, pan_frame_eq _ _ _ _ _ _ _ _ 0 (by decide),
    pan_frame_eq _ _ _ _ _ _ _ _ 1 (by decide)]
  decide

lemma eval_win_100 : pan_window 100 100 50 50 = some (100, 100) := by
  rw [pan_window_eq 100 100 50 50 (by norm_num) (by norm_num) (by norm_num)
    (by norm_num)]
  decide

lemma eval_range_100 : pan_axis_range 100 100 50 50 = some 0 := by
  unfold pan_axis_range
  rw [eval_win_100]
  decide

lemma eval_crop_100 : crop_and_resize_to_ad_size 100 100 50 50 =
    some ⟨⟨0, 0, 100, 100⟩, 50, 50⟩ := by
  rw [crop_and_resize_eq 100 100 50 50 (by norm_num) (by norm_num) (by norm_num)
    (by norm_num)]
  decide

lemma eval_crop_304 : crop_and_resize_to_ad_size 1024 1024 304 248 =
    some ⟨⟨0, 94, 1024, 929⟩, 304, 248⟩ := by
  rw [crop_and_resize_eq 1024 1024 304 248 (by norm_num) (by norm_num)
    (by norm_num) (by norm_num)]
  decide

/-! The claims. -/

/-- C1: for a source with positive dimensions, a positive pan range
`max_offset`, and `num_frames ≥ 2`, frame `i` of the pan sequence uses offset
`floor(max_offset * i / (num_frames - 1))`; in particular the offset is `0` at
`i = 0` and exactly `max_offset` at `i = num_frames - 1`. -/
theorem pan_offsets_linear (W H tw th nf m : Int)
    (hW : 0 < W) (hH : 0 < H) (htw : 0 < tw) (hth : 0 < th)
    (hrange : pan_axis_range W H tw th = some m) (hm : 0 < m) (hnf : 2 ≤ nf)
    (frames : List Frame) (i : Nat) (f : Frame)
    (hframes : create_panning_gif_frames W H tw th nf = some frames)
    (hf : frames[i]? = some f) :
    panOffset tw th f = m * (i : Int) / (nf - 1) ∧
    (i = 0 → panOffset tw th f = 0) ∧
    (i = nf.toNat - 1 → panOffset tw th f = m) := by
  obtain ⟨cw, ch, hwin, hmdef⟩ := pan_axis_range_some hrange
  rw [frames_multi W H tw th nf cw ch m hwin hmdef hm] at hframes
  obtain rfl := (Option.some.inj hframes).symm
  obtain ⟨hi, rfl⟩ := getElem?_range_map hf
  rw [pan_frame_eq _ _ _ _ _ _ _ _ i hm.le]
  have hoff : panOffset tw th
      (if th < tw then
        (⟨⟨(W - cw).fdiv 2, (if 1 < nf then m * (i : Int) / (nf - 1) else 0),
           (W - cw).fdiv 2 + cw,
           (if 1 < nf then m * (i : Int) / (nf - 1) else 0) + ch⟩,
          tw, th⟩ : Frame)
      else
        ⟨⟨(if 1 < nf then m * (i : Int) / (nf - 1) else 0), (H - ch).fdiv 2,
          (if 1 < nf then m * (i : Int) / (nf - 1) else 0) + cw,
          (H - ch).fdiv 2 + ch⟩, tw, th⟩) = m * (i : Int) / (nf - 1) := by
    by_cases hl : th < tw
    · rw [if_pos hl, panOffset, if_pos hl, if_pos (by omega : 1 < nf)]
    · rw [if_neg hl, panOffset, if_neg hl, if_pos (by omega : 1 < nf)]
  rw [hoff]
  refine ⟨rfl, fun h0 => ?_, fun hlast => ?_⟩
  · subst h0
    simp
  · have hcast : (i : Int) = nf - 1 := by omega
    rw [hcast, Int.mul_ediv_cancel m (by omega)]

/-- C1 witness: at source 1024×1024, target (304, 248), pan range 189 and
`num_frames = 2`, the last frame's pan offset equals the full range. -/
theorem pan_offsets_linear_witness :
    panOffset 304 248 ⟨⟨0, 189, 1024, 1024⟩, 304, 248⟩ =
      189 * ((1 : Nat) : Int) / (2 - 1) :=
  (pan_offsets_linear 1024 1024 304 248 2 189 (by decide) (by decide)
    (by decide) (by decide) eval_range_304 (by decide) (by decide)
    _ 1 _ eval_frames_304 (by decide)).1

/-- C5: with positive dimensions, whenever the computed pan range is not
positive, `create_panning_gif` produces exactly one frame, and it is the frame
computed by `crop_and_resize_to_ad_size`. -/
theorem degenerate_single_frame (W H tw th nf m : Int)
    (hW : 0 < W) (hH : 0 < H) (htw : 0 < tw) (hth : 0 < th)
    (hrange : pan_axis_range W H tw th = some m) (hm : m ≤ 0)
    (f : Frame) (hf : crop_and_resize_to_ad_size W H tw th = some f) :
    create_panning_gif_frames W H tw th nf = some [f] := by
  obtain ⟨cw, ch, hwin, hmdef⟩ := pan_axis_range_some hrange
  rw [frames_single W H tw th nf cw ch hwin (hmdef ▸ hm), hf]
  rfl

/-- C5 witness: a 100×100 source with 50×50 target pans by 0, so the GIF is the
single static center-crop frame. -/
theorem degenerate_single_frame_witness :
    create_panning_gif_frames 100 100 50 50 20 =
      some [⟨⟨0, 0, 100, 100⟩, 50, 50⟩] :=
  degenerate_single_frame 100 100 50 50 20 0 (by decide) (by decide) (by decide)
    (by decide) eval_range_100 (by decide) _ eval_crop_100

/-- C10: calling `create_panning_gif` with `num_frames = 0` while the pan range
is positive builds an empty frame list, and the trailing guard then skips the
save: no output and no error. -/
theorem zero_frames_silent (W H tw th m : Int)
    (hW : 0 < W) (hH : 0 < H) (htw : 0 < tw) (hth : 0 < th)
    (hrange : pan_axis_range W H tw th = some m) (hm : 0 < m) :
    create_panning_gif_frames W H tw th 0 = some [] ∧
    create_panning_gif W H tw th 0 = some none := by
  obtain ⟨cw, ch, hwin, hmdef⟩ := pan_axis_range_some hrange
  have h0 : create_panning_gif_frames W H tw th 0 = some [] := by
    rw [frames_multi W H tw th 0 cw ch m hwin hmdef hm]
    rfl
  refine ⟨h0, ?_⟩
  rw [create_panning_gif, h0]
  rfl

/-- C10 witness: at source 1024×1024 and target (304, 248) the pan range is
189 > 0, yet zero requested frames yield no saved GIF and no error. -/
theorem zero_frames_silent_witness :
    create_panning_gif_frames 1024 1024 304 248 0 = some [] ∧
    create_panning_gif 1024 1024 304 248 0 = some none :=
  zero_frames_silent 1024 1024 304 248 189 (by decide) (by decide) (by decide)
    (by decide) eval_range_304 (by decide)

/-- Borrowing `pan_window`'s totality on positive dimensions. -/
lemma pan_window_total (W H tw th : Int)
    (hW : 0 < W) (hH : 0 < H) (htw : 0 < tw) (hth : 0 < th) :
    ∃ cw ch, pan_window W H tw th = some (cw, ch) := by
  rw [pan_window_eq W H tw th hW hH htw hth]
  split_ifs <;> exact ⟨_, _, rfl⟩

/-- Indexing a singleton list only ever returns its element. -/
lemma getElem?_singleton {x y : Frame} {i : Nat} (h : [x][i]? = some y) :
    y = x := by
  rcases i with _ | i
  · simpa using h.symm
  · simp at h

/-- Every `pan_frame` is resized to exactly the target dimensions. -/
lemma pan_frame_size (W H tw th nf m cw ch : Int) (i : Nat) :
    (pan_frame W H tw th nf m cw ch i).width = tw ∧
    (pan_frame W H tw th nf m cw ch i).height = th := by
  constructor <;> (simp only [pan_frame]; split <;> rfl)

/-- C2: with positive source and target dimensions, the crop window of the
static crop and the crop window of every pan frame lie fully within the source
image bounds. -/
theorem crop_windows_in_bounds (W H tw th nf : Int)
    (hW : 0 < W) (hH : 0 < H) (htw : 0 < tw) (hth : 0 < th)
    (f₀ : Frame) (h₀ : crop_and_resize_to_ad_size W H tw th = some f₀)
    (frames : List Frame)
    (hfr : create_panning_gif_frames W H tw th nf = some frames)
    (f : Frame) (hf : f ∈ frames) :
    inBounds W H f₀.box ∧ inBounds W H f.box := by
  obtain ⟨g, hg, -, -, hgb⟩ := crop_frame_spec W H tw th hW hH htw hth
  have hf₀ : f₀ = g := by
    rw [h₀] at hg
    exact Option.some.inj hg
  refine ⟨hf₀ ▸ hgb, ?_⟩
  obtain ⟨cw, ch, hwin⟩ := pan_window_total W H tw th hW hH htw hth
  obtain ⟨hcw0, hcwW, hch0, hchH⟩ := pan_window_bounds hW hH htw hth hwin
  set m := if th < tw then H - ch else W - cw with hmdef
  by_cases hm : 0 < m
  · rw [frames_multi W H tw th nf cw ch m hwin hmdef hm] at hfr
    obtain rfl := (Option.some.inj hfr).symm
    obtain ⟨i, hi, rfl⟩ := List.mem_map.mp hf
    rw [pan_frame_eq _ _ _ _ _ _ _ _ i hm.le]
    set off := if 1 < nf then m * (i : Int) / (nf - 1) else 0 with hoffdef
    have hoff : 0 ≤ off ∧ off ≤ m := by
      by_cases hnf : 1 < nf
      · have hi' : (i : Int) ≤ nf - 1 := by
          have := List.mem_range.mp hi
          omega
        have hb := offset_bounds hm.le (by omega : (0 : Int) < nf - 1)
          (Int.natCast_nonneg i) hi'
        rw [hoffdef, if_pos hnf]
        exact hb
      · rw [hoffdef, if_neg hnf]
        exact ⟨le_refl 0, hm.le⟩
    by_cases hl : th < tw
    · rw [if_pos hl]
      obtain ⟨hc1, hc2⟩ := center_bounds (X := W) (c := cw) (by omega)
      have hmv : m = H - ch := by rw [hmdef, if_pos hl]
      exact ⟨hc1, hc2, hoff.1, by show off + ch ≤ H; omega⟩
    · rw [if_neg hl]
      obtain ⟨hc1, hc2⟩ := center_bounds (X := H) (c := ch) (by omega)
      have hmv : m = W - cw := by rw [hmdef, if_neg hl]
      exact ⟨hoff.1, by show off + cw ≤ W; omega, hc1, hc2⟩
  · rw [frames_single W H tw th nf cw ch hwin
      (by rw [← hmdef]; omega), hg] at hfr
    obtain rfl := (Option.some.inj hfr).symm
    obtain rfl := List.mem_singleton.mp hf
    exact hgb

/-- C2 witness: concrete in-bounds crop windows for a 1024×1024 source and the
(304, 248) target. -/
theorem crop_windows_in_bounds_witness :
    inBounds 1024 1024 ⟨0, 94, 1024, 929⟩ ∧
    inBounds 1024 1024 ⟨0, 0, 1024, 835⟩ :=
  crop_windows_in_bounds 1024 1024 304 248 2 (by decide) (by decide) (by decide)
    (by decide) _ eval_crop_304 _ eval_frames_304
    ⟨⟨0, 0, 1024, 835⟩, 304, 248⟩ (by decide)

/-- C3: with positive dimensions, the static frame and every frame of the pan
sequence have dimensions exactly `(tw, th)`. -/
theorem output_size_exact (W H tw th nf : Int)
    (hW : 0 < W) (hH : 0 < H) (htw : 0 < tw) (hth : 0 < th)
    (f : Frame) (hf : crop_and_resize_to_ad_size W H tw th = some f)
    (frames : List Frame)
    (hfr : create_panning_gif_frames W H tw th nf = some frames)
    (g : Frame) (hg : g ∈ frames) :
    f.width = tw ∧ f.height = th ∧ g.width = tw ∧ g.height = th := by
  obtain ⟨f', hf', hw', hh', -⟩ := crop_frame_spec W H tw th hW hH htw hth
  have hff : f = f' := by
    rw [hf] at hf'
    exact Option.some.inj hf'
  refine ⟨hff ▸ hw', hff ▸ hh', ?_⟩
  obtain ⟨cw, ch, hwin⟩ := pan_window_total W H tw th hW hH htw hth
  set m := if th < tw then H - ch else W - cw with hmdef
  by_cases hm : 0 < m
  · rw [frames_multi W H tw th nf cw ch m hwin hmdef hm] at hfr
    obtain rfl := (Option.some.inj hfr).symm
    obtain ⟨i, -, rfl⟩ := List.mem_map.mp hg
    exact pan_frame_size W H tw th nf m cw ch i
  · rw [frames_single W H tw th nf cw ch hwin (by rw [← hmdef]; omega),
      hf'] at hfr
    obtain rfl := (Option.some.inj hfr).symm
    obtain rfl := List.mem_singleton.mp hg
    exact ⟨hw', hh'⟩

/-- C3 witness: both the static frame and a pan frame at source 1024×1024 and
target (304, 248) measure exactly 304 × 248. -/
theorem output_size_exact_witness :
    (Frame.mk ⟨0, 94, 1024, 929⟩ 304 248).width = 304 ∧
    (Frame.mk ⟨0, 94, 1024, 929⟩ 304 248).height = 248 ∧
    (Frame.mk ⟨0, 0, 1024, 835⟩ 304 248).width = 304 ∧
    (Frame.mk ⟨0, 0, 1024, 835⟩ 304 248).height = 248 :=
  output_size_exact 1024 1024 304 248 2 (by decide) (by decide) (by decide)
    (by decide) _ eval_crop_304 _ eval_frames_304
    ⟨⟨0, 0, 1024, 835⟩, 304, 248⟩ (by decide)

/-- C7: pan offsets are monotonically non-decreasing in the frame index. -/
theorem pan_offsets_monotone (W H tw th nf : Int)
    (hW : 0 < W) (hH : 0 < H) (htw : 0 < tw) (hth : 0 < th)
    (frames : List Frame)
    (hfr : create_panning_gif_frames W H tw th nf = some frames)
    (i j : Nat) (hij : i ≤ j) (fi fj : Frame)
    (hi : frames[i]? = some fi) (hj : frames[j]? = some fj) :
    panOffset tw th fi ≤ panOffset tw th fj := by
  obtain ⟨cw, ch, hwin⟩ := pan_window_total W H tw th hW hH htw hth
  set m := if th < tw then H - ch else W - cw with hmdef
  by_cases hm : 0 < m
  · rw [frames_multi W H tw th nf cw ch m hwin hmdef hm] at hfr
    obtain rfl := (Option.some.inj hfr).symm
    obtain ⟨hi', rfl⟩ := getElem?_range_map hi
    obtain ⟨hj', rfl⟩ := getElem?_range_map hj
    rw [pan_frame_eq _ _ _ _ _ _ _ _ i hm.le,
      pan_frame_eq _ _ _ _ _ _ _ _ j hm.le]
    have key : (if 1 < nf then m * (i : Int) / (nf - 1) else 0) ≤
        (if 1 < nf then m * (j : Int) / (nf - 1) else 0) := by
      by_cases hnf : 1 < nf
      · rw [if_pos hnf, if_pos hnf]
        exact Int.ediv_le_ediv (by omega)
          (mul_le_mul_of_nonneg_left (by exact_mod_cast hij) hm.le)
      · rw [if_neg hnf, if_neg hnf]
    by_cases hl : th < tw
    · rw [if_pos hl, if_pos hl]
      simpa only [panOffset, if_pos hl] using key
    · rw [if_neg hl, if_neg hl]
      simpa only [panOffset, if_neg hl] using key
  · obtain ⟨g, hg, -, -, -⟩ := crop_frame_spec W H tw th hW hH htw hth
    rw [frames_single W H tw th nf cw ch hwin (by rw [← hmdef]; omega),
      hg] at hfr
    obtain rfl := (Option.some.inj hfr).symm
    rw [getElem?_singleton hi, getElem?_singleton hj]

/-- C7 witness: for the 1024×1024 source and (304, 248) target with two frames,
the first offset (0) is at most the second (189). -/
theorem pan_offsets_monotone_witness :
    panOffset 304 248 ⟨⟨0, 0, 1024, 835⟩, 304, 248⟩ ≤
    panOffset 304 248 ⟨⟨0, 189, 1024, 1024⟩, 304, 248⟩ :=
  pan_offsets_monotone 1024 1024 304 248 2 (by decide) (by decide) (by decide)
    (by decide) _ eval_frames_304 0 1 (by decide) _ _ (by decide) (by decide)

/-- C8: with dimensions at least 1, the computed pan range is never negative,
and (for a multi-frame request) the single-frame degenerate branch is taken
exactly when the range is 0. -/
theorem pan_range_nonneg (W H tw th nf m : Int)
    (hW : 1 ≤ W) (hH : 1 ≤ H) (htw : 1 ≤ tw) (hth : 1 ≤ th) (hnf : 2 ≤ nf)
    (hrange : pan_axis_range W H tw th = some m) :
    0 ≤ m ∧
    ((create_panning_gif_frames W H tw th nf).map List.length = some 1 ↔
      m = 0) := by
  obtain ⟨cw, ch, hwin, hmdef⟩ := pan_axis_range_some hrange
  obtain ⟨hcw0, hcwW, hch0, hchH⟩ := pan_window_bounds hW hH htw hth hwin
  have hm0 : 0 ≤ m := by
    rw [hmdef]
    split <;> omega
  refine ⟨hm0, ?_⟩
  by_cases hm : 0 < m
  · rw [frames_multi W H tw th nf cw ch m hwin hmdef hm]
    simp only [Option.map_some', List.length_map, List.length_range]
    constructor
    · intro h1
      have := Option.some.inj h1
      omega
    · intro h0
      omega
  · have hmz : m = 0 := by omega
    obtain ⟨g, hg, -, -, -⟩ := crop_frame_spec W H tw th hW hH htw hth
    rw [frames_single W H tw th nf cw ch hwin (by rw [← hmdef]; omega), hg]
    simp [hmz]

/-- C8 witness: the 1024×1024 source with (304, 248) target has range 189 ≥ 0
and, being positive, a 20-frame request does not take the single-frame
branch. -/
theorem pan_range_nonneg_witness :
    0 ≤ (189 : Int) ∧
    ((create_panning_gif_frames 1024 1024 304 248 20).map List.length = some 1 ↔
      (189 : Int) = 0) :=
  pan_range_nonneg 1024 1024 304 248 20 189 (by decide) (by decide) (by decide)
    (by decide) (by decide) eval_range_304

/-- C4 counterexample: for the 1024×1024 source and near-square target
(304, 248) the code takes the landscape branch (`tw > th`), computing
`crop_width = 1024` first and `crop_height = int(1024/(304/248)) = 835 ≤ 1024`,
so no shrink happens and the pan range is `189` — not the claimed window
`(1024, 834)` and range `190`. -/
theorem example_304_window_actual :
    pan_window 1024 1024 304 248 = some (1024, 835) ∧
    pan_window 1024 1024 304 248 ≠ some (1024, 834) ∧
    pan_axis_range 1024 1024 304 248 = some 189 ∧
    pan_axis_range 1024 1024 304 248 ≠ some 190 :=
  ⟨eval_win_304, by rw [eval_win_304]; decide, eval_range_304,
    by rw [eval_range_304]; decide⟩

/-- C4 amended: for source 1024×1024 and target (304, 248), the landscape
branch applies; the window is `crop_width = 1024`,
`crop_height = int(1024·248/304) = 835` with no shrink, the pan range is
`max_top = 1024 - 835 = 189 > 0`, and a multi-frame pan over that range is
produced (40 frames for a 40-frame request). -/
theorem example_304_window_amended :
    pan_window 1024 1024 304 248 = some (1024, 835) ∧
    pan_axis_range 1024 1024 304 248 = some 189 ∧
    (create_panning_gif_frames 1024 1024 304 248 40).map List.length =
      some 40 := by
  refine ⟨eval_win_304, eval_range_304, ?_⟩
  rw [frames_multi 1024 1024 304 248 40 1024 835 189 eval_win_304 (by decide)
    (by decide)]
  simp only [Option.map_some', List.length_map, List.length_range]
  decide

/-- C6 counterexample: a call with `tw = -1 ≤ 0` (and valid `th`, source) is
not rejected: the crop computation runs to completion and returns a frame, so
no validation of non-positive target dimensions happens before computation. -/
theorem negative_target_not_rejected :
    crop_and_resize_to_ad_size 1024 1024 (-1) 248 =
      some ⟨⟨514, 0, 510, 1024⟩, -1, 248⟩ := by
  have hx : pyint (((1024 : Int) : ℚ) * (((-1 : Int) : ℚ) / ((248 : Int) : ℚ)))
      = -4 := by
    norm_num [pyint, Int.ceil_eq_iff]
  simp only [crop_and_resize_to_ad_size]
  rw [if_neg (by norm_num : ¬(248 : Int) = 0),
    if_neg (by norm_num : ¬(1024 : Int) = 0),
    if_pos (by norm_num : ((1024 : Int) : ℚ) / ((1024 : Int) : ℚ) >
      ((-1 : Int) : ℚ) / ((248 : Int) : ℚ)), hx]
  decide

/-- C6 amended: the only immediate failure is the `ZeroDivisionError` raised by
`target_aspect = tw / th` when `th = 0`: that exception propagates to the
caller (`none`) from both operations before any crop computation; calls with
`tw ≤ 0` but `th ≠ 0` are not rejected. -/
theorem zero_th_division_error (W H tw nf : Int) :
    crop_and_resize_to_ad_size W H tw 0 = none ∧
    create_panning_gif_frames W H tw 0 nf = none := by
  constructor
  · rw [crop_and_resize_to_ad_size, if_pos rfl]
  · simp [create_panning_gif_frames, pan_window]

/-- C9: strictly positive source and target dimensions do not guarantee a
non-empty crop window: at `W = H = 10`, `tw = 1`, `th = 1000` the computed
`new_width = int(10 * (1/1000))` is `0` and the crop box passed on to the
resize step has zero width. -/
theorem zero_width_crop :
    ∃ f, crop_and_resize_to_ad_size 10 10 1 1000 = some f ∧
      f.box.right = f.box.left := by
  refine ⟨⟨⟨5, 0, 5, 10⟩, 1, 1000⟩, ?_, rfl⟩
  rw [crop_and_resize_eq 10 10 1 1000 (by decide) (by decide) (by decide)
    (by decide)]
  decide

end Yankee
